import Mathlib

/-!
Shallow embedding of `src/scripts/script.js` (a Hacker News client with two
paginated feeds) and proofs about it.

Modelling conventions:
* JavaScript `null`/`undefined` results become `Option`; a fetched item record
  becomes the `Item` structure below (fields as in §6 of the design).
* The HTTP transport is an oracle: `fetchFromAPI`/`fetchItemDetails` consume a
  single `TransportOutcome` (one request per call, as in the source, which never
  retries); `fetchItemsWithConcurrency` takes the composed per-id fetch
  `f : Nat → Option Item` (in the source this is `fetchItemDetails`, which
  always resolves, to `null` on failure).
* The observable behaviour of one `loadMore*` run (which fetches are issued,
  when they resolve, the `onItemFetched` calls with their boolean results, the
  single `onBatchComplete` call, and the button update) is recorded as an
  explicit event trace, so that ordering and concurrency claims are statable.
  Within one chunk the source issues all fetches, then `Promise.all` resolves
  them all before the continuation runs; the trace records the issues of a
  chunk, then its resolutions, then the `forEach` over its results.
* The DOM side of rendering is out of scope (§1 of the design); what is kept of
  `renderBestNewsItem` is its pure content, including that it applies
  `escapeHTML` to `item.title`, which in JavaScript throws a `TypeError` when
  the title is `undefined` (modelled as `Except.error "TypeError"`).
-/

/-- Constant `ITEMS_PER_PAGE` from the source. -/
def ITEMS_PER_PAGE : Nat := 6

/-- Constant `MAX_CONCURRENT_REQUESTS` from the source. -/
def MAX_CONCURRENT_REQUESTS : Nat := 3

/-- Constant `MIN_SCORE_LATEST` from the source. -/
def MIN_SCORE_LATEST : Int := 0

/-- Constant `IMAGES` from the source. -/
def IMAGES : List String :=
  ["../assets/img-black.png", "../assets/img-green.png", "../assets/img-white.png"]

/-- Decoded remote item record (fields per the item endpoint of §6). -/
structure Item where
  id : Nat
  type : String
  title : Option String
  url : Option String
  time : Option Int
  score : Option Int
deriving Repr, DecidableEq

/-- JavaScript truthiness of an optional string: `undefined`, `null` and the
empty string are falsy; every other string is truthy. -/
def strTruthy : Option String → Bool
  | none => false
  | some s => !s.isEmpty

/-- Validity test of `onItemFetched` in `loadMoreBestNews`:
`item.type === 'story' && item.url`. -/
def bestOnItem (it : Item) : Bool :=
  it.type == "story" && strTruthy it.url

/-- Validity test of `onItemFetched` in `loadMoreLatestNews`:
`item.type === 'story' && item.url && (item.score || 0) >= MIN_SCORE_LATEST`.
For an integer score, `item.score || 0` equals the score when present (a
present score of `0` is falsy in JavaScript but `0 || 0 = 0`) and `0` when
absent, hence `Option.getD`. -/
def latestOnItem (it : Item) : Bool :=
  it.type == "story" && strTruthy it.url && decide (it.score.getD 0 ≥ MIN_SCORE_LATEST)

/-- Function `getImageByID`: `IMAGES[id % IMAGES.length]`; the index is always
in range, so `getD` never falls back to its default. -/
def getImageByID (id : Nat) : String :=
  IMAGES.getD (id % IMAGES.length) ""

/-- Replacement map of `escapeHTML` for one character. -/
def escapeChar (c : Char) : String :=
  if c = '&' then "&amp;"
  else if c = '<' then "&lt;"
  else if c = '>' then "&gt;"
  else if c = '\x22' then "&quot;"
  else if c = '\x27' then "&#039;"
  else String.singleton c

/-- Function `escapeHTML` on an actual string:
`text.replace(/[&<>"']/g, char => map[char])`. -/
def escapeHTML (s : String) : String :=
  String.join (s.toList.map escapeChar)

/-- Function `escapeHTML` as invoked by the render functions, on a possibly
absent title: `text.replace` on `undefined` throws a `TypeError`. -/
def escapeHTMLJS : Option String → Except String String
  | none => Except.error "TypeError"
  | some s => Except.ok (escapeHTML s)

/-- Pure content of one gallery entry built by `renderBestNewsItem`. -/
structure RenderedBest where
  href : Option String
  image : String
  altTitle : String
  titleHtml : String
deriving Repr, DecidableEq

/-- Function `renderBestNewsItem`, DOM construction elided: it reads
`item.url`, computes `getImageByID(item.id)` and applies `escapeHTML` to
`item.title` (twice, in the template literal); when the title is absent that
call throws, which the source does not catch. -/
def renderBestNewsItem (it : Item) : Except String RenderedBest := do
  let alt ← escapeHTMLJS it.title
  let t ← escapeHTMLJS it.title
  Except.ok { href := it.url, image := getImageByID it.id, altTitle := alt, titleHtml := t }

/-- Outcome of one HTTP request: the transport can fail outright
(`fetch` rejects), or deliver a response with a status code and a body whose
JSON decoding either succeeds with an `α` or throws. -/
inductive TransportOutcome (α : Type) where
  | netError
  | response (status : Nat) (body : Except Unit α)

/-- Response predicate `res.ok`: status in 200–299. -/
def resOk (status : Nat) : Bool :=
  decide (200 ≤ status ∧ status ≤ 299)

/-- Function `fetchFromAPI`: one request; `if (!res.ok) throw`; any thrown
error (transport, status, decode) is caught and replaced by `[]`. -/
def fetchFromAPI (o : TransportOutcome (List Nat)) : List Nat :=
  match o with
  | .netError => []
  | .response status body =>
    if resOk status then
      match body with
      | .ok v => v
      | .error _ => []
    else []

/-- Function `fetchItemDetails`: one request for one id; on any failure it
resolves to `null` (here `none`) instead of propagating the error. -/
def fetchItemDetails (o : TransportOutcome Item) : Option Item :=
  match o with
  | .netError => none
  | .response status body =>
    if resOk status then
      match body with
      | .ok v => some v
      | .error _ => none
    else none

/-- Model of "issues a single request": the source never retries, so the
result of `fetchFromAPI` depends only on the first outcome the transport
would produce. -/
def fetchFromAPIFirstAttempt (os : Nat → TransportOutcome (List Nat)) : List Nat :=
  fetchFromAPI (os 0)

/-- Model of "issues a single request" for `fetchItemDetails`. -/
def fetchItemDetailsFirstAttempt (os : Nat → TransportOutcome Item) : Option Item :=
  fetchItemDetails (os 0)

/-- Observable events of one `fetchItemsWithConcurrency` run. `issue id` is
the call `fetchItemDetails(id)` being started, `resolve id r` its promise
settling (always fulfilled, possibly with `null`), `item it b` a call of
`onItemFetched` returning `b`, and `done n` the call `onBatchComplete(n)`. -/
inductive FetchEvent where
  | issue (id : Nat)
  | resolve (id : Nat) (r : Option Item)
  | item (it : Item) (b : Bool)
  | done (n : Nat)
deriving Repr, DecidableEq

/-- Events of one chunk of the loop body of `fetchItemsWithConcurrency`: all
fetches of the chunk are issued, `Promise.all` waits for every one of them,
then `forEach` runs `if (item && onItemFetched(item))` over the results in
chunk order. -/
def chunkEvents (f : Nat → Option Item) (g : Item → Bool) (chunk : List Nat) : List FetchEvent :=
  chunk.map FetchEvent.issue
    ++ chunk.map (fun id => FetchEvent.resolve id (f id))
    ++ (chunk.filterMap f).map (fun it => FetchEvent.item it (g it))

/-- Valid items contributed by one chunk: results that are non-null and for
which `onItemFetched` returned true. -/
def chunkValidCount (f : Nat → Option Item) (g : Item → Bool) (chunk : List Nat) : Nat :=
  ((chunk.filterMap f).filter g).length

/-- Loop of `fetchItemsWithConcurrency`: `for (i = 0; i < ids.length;
i += MAX_CONCURRENT_REQUESTS)` slicing `ids.slice(i, i + MAX_CONCURRENT_REQUESTS)`
each iteration, i.e. the id list is consumed `MAX_CONCURRENT_REQUESTS = 3` ids at
a time (the final slice may be shorter: the 1- and 2-element cases). Returns
`validItemsCount` together with the event trace of the loop. -/
def fetchLoop (f : Nat → Option Item) (g : Item → Bool) : List Nat → Nat × List FetchEvent
  | [] => (0, [])
  | [a] => (chunkValidCount f g [a], chunkEvents f g [a])
  | [a, b] => (chunkValidCount f g [a, b], chunkEvents f g [a, b])
  | a :: b :: c :: rest =>
    let tail := fetchLoop f g rest
    (chunkValidCount f g [a, b, c] + tail.1, chunkEvents f g [a, b, c] ++ tail.2)

/-- Function `fetchItemsWithConcurrency ids onItemFetched onBatchComplete`:
runs the chunked loop, then calls `onBatchComplete(validItemsCount)` once.
The per-id fetch is `fetchItemDetails` composed with the ambient network,
abstracted as `f`. -/
def fetchItemsWithConcurrency (f : Nat → Option Item) (g : Item → Bool)
    (ids : List Nat) : List FetchEvent :=
  (fetchLoop f g ids).2 ++ [FetchEvent.done (fetchLoop f g ids).1]

/-- Per-feed controller state: the globals `bestNewsIds`/`latestNewsIds`,
`bestNewsPage`/`latestNewsPage`, `bestNewsLoading`/`latestNewsLoading`. -/
structure ControllerState where
  ids : List Nat
  page : Nat
  loading : Bool
deriving Repr, DecidableEq

/-- Events of one controller run: the fetcher's events, plus the button
update performed by `onBatchComplete` (`button b` records `hasMore`). -/
inductive PageEvent where
  | fetchEv (e : FetchEvent)
  | button (hasMore : Bool)
deriving Repr, DecidableEq

/-- Functions `loadMoreBestNews`/`loadMoreLatestNews`, which differ only in
their validity test `g` and render target: no-op when `loading` is set or
`page * ITEMS_PER_PAGE >= ids.length`; otherwise set `loading`, slice
`ids.slice(page*6, (page+1)*6)`, run the batch fetcher (whose
`onBatchComplete` calls `updateBestNewsLoadButton`, reading the still
un-incremented page global: `hasMore = (page + 1) * 6 < ids.length`), then
increment the page and clear `loading`. -/
def loadMoreNews (f : Nat → Option Item) (g : Item → Bool) (s : ControllerState) :
    ControllerState × List PageEvent :=
  if s.loading || decide (s.page * ITEMS_PER_PAGE ≥ s.ids.length) then
    (s, [])
  else
    let startIndex := s.page * ITEMS_PER_PAGE
    let batchIds := (s.ids.drop startIndex).take ITEMS_PER_PAGE
    let hasMore := decide ((s.page + 1) * ITEMS_PER_PAGE < s.ids.length)
    ({ s with page := s.page + 1, loading := false },
      (fetchItemsWithConcurrency f g batchIds).map PageEvent.fetchEv
        ++ [PageEvent.button hasMore])

/-- Function `loadMoreBestNews` (state passed explicitly). -/
def loadMoreBestNews (f : Nat → Option Item) (s : ControllerState) :
    ControllerState × List PageEvent :=
  loadMoreNews f bestOnItem s

/-- Function `loadMoreLatestNews` (state passed explicitly). -/
def loadMoreLatestNews (f : Nat → Option Item) (s : ControllerState) :
    ControllerState × List PageEvent :=
  loadMoreNews f latestOnItem s

/-- Iterated `advance()`: `n` successive completed `loadMore` calls. -/
def advanceN (f : Nat → Option Item) (g : Item → Bool) : Nat → ControllerState → ControllerState
  | 0, s => s
  | n + 1, s => advanceN f g n (loadMoreNews f g s).1

/-- Exhaustion guard of `loadMore*`: `page * ITEMS_PER_PAGE >= ids.length`. -/
def exhausted (s : ControllerState) : Bool :=
  decide (s.page * ITEMS_PER_PAGE ≥ s.ids.length)

/-- Controller state right after a successful `initialize*` assigned the id
list and reset the page, before its first `loadMore*` call. -/
def initState (ids : List Nat) : ControllerState :=
  { ids := ids, page := 0, loading := false }

/-- Number of pages needed to cover a list of the given length, `⌈len/6⌉`. -/
def ceilPages (len : Nat) : Nat :=
  (len + ITEMS_PER_PAGE - 1) / ITEMS_PER_PAGE

/-- The id slices consumed by the loop of `fetchItemsWithConcurrency`, in
order: `ids.slice(i, i + MAX_CONCURRENT_REQUESTS)` for `i = 0, 3, 6, …`. -/
def chunkedIds : List Nat → List (List Nat)
  | [] => []
  | [a] => [[a]]
  | [a, b] => [[a, b]]
  | a :: b :: c :: rest => [a, b, c] :: chunkedIds rest

/-- Argument of an `onItemFetched` call event, if any. -/
def itemArg : FetchEvent → Option Item
  | .issue _ => none
  | .resolve _ _ => none
  | .item it _ => some it
  | .done _ => none

/-- Argument of an `onItemFetched` call event that returned true (i.e. an
item that was rendered), if any. -/
def renderedArg : FetchEvent → Option Item
  | .issue _ => none
  | .resolve _ _ => none
  | .item it b => if b then some it else none
  | .done _ => none

/-- Argument of an `onBatchComplete` call event, if any. -/
def doneArg : FetchEvent → Option Nat
  | .issue _ => none
  | .resolve _ _ => none
  | .item _ _ => none
  | .done n => some n

/-- Id of a fetch-issue event, if any. -/
def issueArg : FetchEvent → Option Nat
  | .issue id => some id
  | .resolve _ _ => none
  | .item _ _ => none
  | .done _ => none

/-- Test for a fetch-issue event. -/
def isIssue : FetchEvent → Bool
  | .issue _ => true
  | .resolve _ _ => false
  | .item _ _ => false
  | .done _ => false

/-- Test for a fetch-resolution event. -/
def isResolve : FetchEvent → Bool
  | .issue _ => false
  | .resolve _ _ => true
  | .item _ _ => false
  | .done _ => false

/-- Ids issued during a controller run. -/
def pageIssueArg : PageEvent → Option Nat
  | .fetchEv e => issueArg e
  | .button _ => none

/-- Values of the button updates of a controller run (`hasMore`, i.e. the
affordance stays visible). -/
def buttonArg : PageEvent → Option Bool
  | .fetchEv _ => none
  | .button b => some b

theorem filterMap_const_none {α β : Type} (l : List α) :
    l.filterMap (fun _ => (none : Option β)) = [] := by
  induction l with
  | nil => rfl
  | cons a t ih => simp [ih]

theorem chunkEvents_itemArgs (f : Nat → Option Item) (g : Item → Bool) (c : List Nat) :
    (chunkEvents f g c).filterMap itemArg = c.filterMap f := by
  simp [chunkEvents, List.filterMap_append, List.filterMap_map, Function.comp_def, itemArg,
    filterMap_const_none]

theorem chunkEvents_renderedArgs (f : Nat → Option Item) (g : Item → Bool) (c : List Nat) :
    (chunkEvents f g c).filterMap renderedArg = (c.filterMap f).filter g := by
  simp only [chunkEvents, List.filterMap_append, List.filterMap_map, Function.comp_def,
    renderedArg, filterMap_const_none, List.nil_append]
  induction c.filterMap f with
  | nil => rfl
  | cons a t ih =>
    by_cases h : g a <;> simp [List.filter_cons, h, ih]

theorem chunkEvents_doneArgs (f : Nat → Option Item) (g : Item → Bool) (c : List Nat) :
    (chunkEvents f g c).filterMap doneArg = [] := by
  simp [chunkEvents, List.filterMap_append, List.filterMap_map, Function.comp_def, doneArg,
    filterMap_const_none]

theorem chunkEvents_issueArgs (f : Nat → Option Item) (g : Item → Bool) (c : List Nat) :
    (chunkEvents f g c).filterMap issueArg = c := by
  simp [chunkEvents, List.filterMap_append, List.filterMap_map, Function.comp_def, issueArg,
    filterMap_const_none]

theorem chunkEvents_issueCount (f : Nat → Option Item) (g : Item → Bool) (c : List Nat) :
    (chunkEvents f g c).countP isIssue = c.length := by
  simp [chunkEvents, List.countP_append, List.countP_map, Function.comp_def, isIssue]

theorem chunk_le_max (a b c : Nat) : ([a, b, c] : List Nat).length ≤ MAX_CONCURRENT_REQUESTS := by
  simp [MAX_CONCURRENT_REQUESTS]

theorem fetchLoop_count (f : Nat → Option Item) (g : Item → Bool) (l : List Nat) :
    (fetchLoop f g l).1 = ((l.filterMap f).filter g).length := by
  induction l using fetchLoop.induct f g with
  | case1 => simp [fetchLoop]
  | case2 a => rfl
  | case3 a b => rfl
  | case4 a b c rest ih =>
    show chunkValidCount f g [a, b, c] + (fetchLoop f g rest).1
      = ((([a, b, c] ++ rest).filterMap f).filter g).length
    rw [List.filterMap_append, List.filter_append, List.length_append, ih]
    rfl

theorem fetchLoop_itemArgs (f : Nat → Option Item) (g : Item → Bool) (l : List Nat) :
    (fetchLoop f g l).2.filterMap itemArg = l.filterMap f := by
  induction l using fetchLoop.induct f g with
  | case1 => simp [fetchLoop]
  | case2 a => exact chunkEvents_itemArgs f g [a]
  | case3 a b => exact chunkEvents_itemArgs f g [a, b]
  | case4 a b c rest ih =>
    show (chunkEvents f g [a, b, c] ++ (fetchLoop f g rest).2).filterMap itemArg
      = ([a, b, c] ++ rest).filterMap f
    rw [List.filterMap_append, List.filterMap_append, ih, chunkEvents_itemArgs]

theorem fetchLoop_renderedArgs (f : Nat → Option Item) (g : Item → Bool) (l : List Nat) :
    (fetchLoop f g l).2.filterMap renderedArg = (l.filterMap f).filter g := by
  induction l using fetchLoop.induct f g with
  | case1 => simp [fetchLoop]
  | case2 a => exact chunkEvents_renderedArgs f g [a]
  | case3 a b => exact chunkEvents_renderedArgs f g [a, b]
  | case4 a b c rest ih =>
    show (chunkEvents f g [a, b, c] ++ (fetchLoop f g rest).2).filterMap renderedArg
      = ((([a, b, c] ++ rest).filterMap f).filter g)
    rw [List.filterMap_append, List.filterMap_append, List.filter_append, ih,
      chunkEvents_renderedArgs]

theorem fetchLoop_doneArgs (f : Nat → Option Item) (g : Item → Bool) (l : List Nat) :
    (fetchLoop f g l).2.filterMap doneArg = [] := by
  induction l using fetchLoop.induct f g with
  | case1 => simp [fetchLoop]
  | case2 a => exact chunkEvents_doneArgs f g [a]
  | case3 a b => exact chunkEvents_doneArgs f g [a, b]
  | case4 a b c rest ih =>
    rw [fetchLoop]
    rw [List.filterMap_append, ih, chunkEvents_doneArgs]
    rfl

theorem fetchLoop_issueArgs (f : Nat → Option Item) (g : Item → Bool) (l : List Nat) :
    (fetchLoop f g l).2.filterMap issueArg = l := by
  induction l using fetchLoop.induct f g with
  | case1 => simp [fetchLoop]
  | case2 a => exact chunkEvents_issueArgs f g [a]
  | case3 a b => exact chunkEvents_issueArgs f g [a, b]
  | case4 a b c rest ih =>
    show (chunkEvents f g [a, b, c] ++ (fetchLoop f g rest).2).filterMap issueArg
      = [a, b, c] ++ rest
    rw [List.filterMap_append, ih, chunkEvents_issueArgs]

theorem chunkEvents_resolveCount (f : Nat → Option Item) (g : Item → Bool) (c : List Nat) :
    (chunkEvents f g c).countP isResolve = c.length := by
  simp [chunkEvents, List.countP_append, List.countP_map, Function.comp_def, isResolve]

theorem fetchLoop_chunked (f : Nat → Option Item) (g : Item → Bool) (l : List Nat) :
    (fetchLoop f g l).2 = ((chunkedIds l).map (chunkEvents f g)).flatten := by
  induction l using fetchLoop.induct f g with
  | case1 => simp [fetchLoop, chunkedIds]
  | case2 a => simp [fetchLoop, chunkedIds]
  | case3 a b => simp [fetchLoop, chunkedIds]
  | case4 a b c rest ih =>
    rw [fetchLoop, chunkedIds]
    simp [ih]

theorem chunkedIds_length_le (l : List Nat) :
    ∀ c ∈ chunkedIds l, c.length ≤ MAX_CONCURRENT_REQUESTS := by
  induction l using chunkedIds.induct with
  | case1 => simp [chunkedIds]
  | case2 a => simp [chunkedIds, MAX_CONCURRENT_REQUESTS]
  | case3 a b => simp [chunkedIds, MAX_CONCURRENT_REQUESTS]
  | case4 a b c rest ih =>
    rw [chunkedIds]
    intro d hd
    rcases List.mem_cons.mp hd with h | h
    · subst h
      simp [MAX_CONCURRENT_REQUESTS]
    · exact ih d h

theorem chunkedIds_flatten (l : List Nat) : (chunkedIds l).flatten = l := by
  induction l using chunkedIds.induct with
  | case1 => rfl
  | case2 a => rfl
  | case3 a b => rfl
  | case4 a b c rest ih =>
    rw [chunkedIds]
    simp only [List.flatten_cons, ih]
    rfl


theorem chunk_split_inflight (f : Nat → Option Item) (g : Item → Bool) (c : List Nat)
    (hc : c.length ≤ MAX_CONCURRENT_REQUESTS) (p r : List FetchEvent)
    (h : chunkEvents f g c = p ++ r) :
    p.countP isIssue ≤ p.countP isResolve + MAX_CONCURRENT_REQUESTS := by
  have hcount : p.countP isIssue ≤ (chunkEvents f g c).countP isIssue := by
    rw [h, List.countP_append]
    omega
  rw [chunkEvents_issueCount] at hcount
  omega

theorem fetchLoop_inflight (f : Nat → Option Item) (g : Item → Bool) (l : List Nat) :
    ∀ p q : List FetchEvent, (fetchLoop f g l).2 = p ++ q →
      p.countP isIssue ≤ p.countP isResolve + MAX_CONCURRENT_REQUESTS := by
  induction l using fetchLoop.induct f g with
  | case1 =>
    intro p q h
    rw [fetchLoop] at h
    have hp : p = [] := by
      rcases List.append_eq_nil.mp h.symm with ⟨hp, -⟩
      exact hp
    simp [hp, MAX_CONCURRENT_REQUESTS]
  | case2 a =>
    intro p q h
    exact chunk_split_inflight f g [a] (by simp [MAX_CONCURRENT_REQUESTS]) p q h
  | case3 a b =>
    intro p q h
    exact chunk_split_inflight f g [a, b] (by simp [MAX_CONCURRENT_REQUESTS]) p q h
  | case4 a b c rest ih =>
    intro p q h
    rw [fetchLoop] at h
    have h2 : p ++ q = chunkEvents f g [a, b, c] ++ (fetchLoop f g rest).2 := h.symm
    rcases List.append_eq_append_iff.mp h2 with ⟨r, hr1, hr2⟩ | ⟨r, hr1, hr2⟩
    · -- the split point lies inside this chunk segment
      exact chunk_split_inflight f g [a, b, c] (chunk_le_max a b c) p r hr1
    · -- the split point lies after this chunk segment
      have htail := ih r q hr2
      simp only [hr1, List.countP_append, chunkEvents_issueCount, chunkEvents_resolveCount]
      omega

/-- Arguments of the `onBatchComplete` calls in a trace. -/
def validCounts (evs : List FetchEvent) : List Nat :=
  evs.filterMap doneArg

/-- Arguments of the `onItemFetched` calls in a trace, in call order. -/
def itemCalls (evs : List FetchEvent) : List Item :=
  evs.filterMap itemArg

/-- Items whose `onItemFetched` call returned true (the rendered items), in
call order. -/
def renderedItems (evs : List FetchEvent) : List Item :=
  evs.filterMap renderedArg

/-- Ids whose fetch was issued, in issue order. -/
def issuedIds (evs : List FetchEvent) : List Nat :=
  evs.filterMap issueArg

/-- Values `hasMore` of the button updates of a controller run. -/
def buttonUpdates (evs : List PageEvent) : List Bool :=
  evs.filterMap buttonArg

/-- Ids whose fetch was issued during a controller run. -/
def pageIssuedIds (evs : List PageEvent) : List Nat :=
  evs.filterMap pageIssueArg

theorem filterMap_map_fetchEv_buttonArg (evs : List FetchEvent) :
    (evs.map PageEvent.fetchEv).filterMap buttonArg = [] := by
  simp [List.filterMap_map, Function.comp_def, buttonArg, filterMap_const_none]

theorem filterMap_map_fetchEv_pageIssueArg (evs : List FetchEvent) :
    (evs.map PageEvent.fetchEv).filterMap pageIssueArg = evs.filterMap issueArg := by
  simp [List.filterMap_map, Function.comp_def, pageIssueArg]

theorem fic_validCounts (f : Nat → Option Item) (g : Item → Bool) (ids : List Nat) :
    validCounts (fetchItemsWithConcurrency f g ids) = [((ids.filterMap f).filter g).length] := by
  rw [validCounts, fetchItemsWithConcurrency, List.filterMap_append, fetchLoop_doneArgs,
    fetchLoop_count]
  rfl

theorem fic_getLast (f : Nat → Option Item) (g : Item → Bool) (ids : List Nat) :
    (fetchItemsWithConcurrency f g ids).getLast?
      = some (FetchEvent.done (((ids.filterMap f).filter g).length)) := by
  rw [fetchItemsWithConcurrency, List.getLast?_append, fetchLoop_count]
  rfl

theorem fic_itemCalls (f : Nat → Option Item) (g : Item → Bool) (ids : List Nat) :
    itemCalls (fetchItemsWithConcurrency f g ids) = ids.filterMap f := by
  rw [itemCalls, fetchItemsWithConcurrency, List.filterMap_append, fetchLoop_itemArgs]
  simp [itemArg]

theorem fic_renderedItems (f : Nat → Option Item) (g : Item → Bool) (ids : List Nat) :
    renderedItems (fetchItemsWithConcurrency f g ids) = (ids.filterMap f).filter g := by
  rw [renderedItems, fetchItemsWithConcurrency, List.filterMap_append, fetchLoop_renderedArgs]
  simp [renderedArg]

theorem fic_issuedIds (f : Nat → Option Item) (g : Item → Bool) (ids : List Nat) :
    issuedIds (fetchItemsWithConcurrency f g ids) = ids := by
  rw [issuedIds, fetchItemsWithConcurrency, List.filterMap_append, fetchLoop_issueArgs]
  simp [issueArg]

theorem fic_inflight (f : Nat → Option Item) (g : Item → Bool) (ids : List Nat) :
    ∀ p q : List FetchEvent, fetchItemsWithConcurrency f g ids = p ++ q →
      p.countP isIssue ≤ p.countP isResolve + MAX_CONCURRENT_REQUESTS := by
  intro p q h
  rw [fetchItemsWithConcurrency] at h
  rcases List.append_eq_append_iff.mp h.symm with ⟨r, hr1, hr2⟩ | ⟨r, hr1, hr2⟩
  · exact fetchLoop_inflight f g ids p r hr1
  · have hloop := fetchLoop_inflight f g ids (fetchLoop f g ids).2 []
      (by simp)
    have hr0 : r.countP isIssue = 0 ∧ r.countP isResolve = 0 := by
      match r, hr2 with
      | [], _ => simp
      | x :: r', hx =>
        simp only [List.cons_append, List.cons.injEq] at hx
        rcases hx with ⟨hx1, hx2⟩
        rcases List.append_eq_nil.mp hx2.symm with ⟨h1, -⟩
        subst hx1 h1
        simp [isIssue, isResolve]
    simp only [hr1, List.countP_append]
    omega

theorem pages_lt_iff (k len : Nat) : k * ITEMS_PER_PAGE < len ↔ k < ceilPages len := by
  rw [ITEMS_PER_PAGE, ceilPages, ITEMS_PER_PAGE]
  omega

theorem loadMoreNews_loading (f : Nat → Option Item) (g : Item → Bool) (s : ControllerState)
    (h : s.loading = true) : loadMoreNews f g s = (s, []) := by
  simp [loadMoreNews, h]

theorem loadMoreNews_exhausted (f : Nat → Option Item) (g : Item → Bool) (s : ControllerState)
    (h : s.ids.length ≤ s.page * ITEMS_PER_PAGE) : loadMoreNews f g s = (s, []) := by
  simp [loadMoreNews, h]

theorem loadMoreNews_run (f : Nat → Option Item) (g : Item → Bool) (s : ControllerState)
    (h1 : s.loading = false) (h2 : s.page * ITEMS_PER_PAGE < s.ids.length) :
    loadMoreNews f g s
      = ({ s with page := s.page + 1, loading := false },
        (fetchItemsWithConcurrency f g
            ((s.ids.drop (s.page * ITEMS_PER_PAGE)).take ITEMS_PER_PAGE)).map PageEvent.fetchEv
          ++ [PageEvent.button (decide ((s.page + 1) * ITEMS_PER_PAGE < s.ids.length))]) := by
  rw [loadMoreNews]
  rw [h1]
  simp [Nat.not_le.mpr h2]

theorem advanceN_closed (f : Nat → Option Item) (g : Item → Bool) (ids : List Nat)
    (p m : Nat) :
    advanceN f g m { ids := ids, page := p, loading := false }
      = { ids := ids, page := min (p + m) (max p (ceilPages ids.length)), loading := false } := by
  induction m generalizing p with
  | zero =>
    simp only [advanceN, ControllerState.mk.injEq, true_and, and_true]
    omega
  | succ m ih =>
    rw [advanceN]
    by_cases h : p * ITEMS_PER_PAGE < ids.length
    · rw [loadMoreNews_run f g _ rfl h]
      rw [ih (p + 1)]
      have hp : p < ceilPages ids.length := (pages_lt_iff p ids.length).mp h
      simp only [ControllerState.mk.injEq, true_and, and_true]
      omega
    · rw [loadMoreNews_exhausted f g _ (Nat.not_lt.mp h)]
      rw [ih p]
      have hp : ¬ p < ceilPages ids.length := fun hc => h ((pages_lt_iff p ids.length).mpr hc)
      simp only [ControllerState.mk.injEq, true_and, and_true]
      omega

theorem ceil_mul_ge (len : Nat) : len ≤ ceilPages len * ITEMS_PER_PAGE := by
  simp only [ceilPages, ITEMS_PER_PAGE]
  omega

theorem advanceN_init (f : Nat → Option Item) (g : Item → Bool) (ids : List Nat) (m : Nat) :
    advanceN f g m (initState ids)
      = { ids := ids, page := min m (ceilPages ids.length), loading := false } := by
  have h := advanceN_closed f g ids 0 m
  simpa [initState, Nat.zero_max] using h

theorem run_buttonUpdates (f : Nat → Option Item) (g : Item → Bool) (s : ControllerState)
    (h1 : s.loading = false) (h2 : s.page * ITEMS_PER_PAGE < s.ids.length) :
    buttonUpdates (loadMoreNews f g s).2
      = [decide ((s.page + 1) * ITEMS_PER_PAGE < s.ids.length)] := by
  rw [loadMoreNews_run f g s h1 h2]
  simp only [buttonUpdates, List.filterMap_append, filterMap_map_fetchEv_buttonArg,
    List.nil_append]
  rfl

theorem run_pageIssuedIds (f : Nat → Option Item) (g : Item → Bool) (s : ControllerState)
    (h1 : s.loading = false) (h2 : s.page * ITEMS_PER_PAGE < s.ids.length) :
    pageIssuedIds (loadMoreNews f g s).2
      = (s.ids.drop (s.page * ITEMS_PER_PAGE)).take ITEMS_PER_PAGE := by
  rw [loadMoreNews_run f g s h1 h2]
  simp only [pageIssuedIds, List.filterMap_append, filterMap_map_fetchEv_pageIssueArg]
  rw [show (fetchItemsWithConcurrency f g
      ((s.ids.drop (s.page * ITEMS_PER_PAGE)).take ITEMS_PER_PAGE)).filterMap issueArg
    = issuedIds (fetchItemsWithConcurrency f g
      ((s.ids.drop (s.page * ITEMS_PER_PAGE)).take ITEMS_PER_PAGE)) from rfl]
  rw [fic_issuedIds]
  simp [pageIssueArg]

theorem batch_ne_nil (s : ControllerState) (h2 : s.page * ITEMS_PER_PAGE < s.ids.length) :
    (s.ids.drop (s.page * ITEMS_PER_PAGE)).take ITEMS_PER_PAGE ≠ [] := by
  apply List.ne_nil_of_length_pos
  simp only [List.length_take, List.length_drop, ITEMS_PER_PAGE] at h2 ⊢
  omega

/-- C1: from cursor 0 a controller with id list of length `L` reaches the
exhausted guard after exactly `⌈L / ITEMS_PER_PAGE⌉` completed `advance()`
calls (`loadMoreBestNews` and `loadMoreLatestNews` are `loadMoreNews` at the
two validity tests, so `g` ranges over both feeds): after that many calls the
guard `cursor * pageSize >= len(IDList)` holds, after any fewer it does not,
and every further call is a no-op returning the state unchanged with an empty
trace (no fetch issued). -/
theorem c1_calls_to_exhaustion (f : Nat → Option Item) (g : Item → Bool) (ids : List Nat) :
    exhausted (advanceN f g (ceilPages ids.length) (initState ids)) = true
      ∧ (∀ m, m < ceilPages ids.length →
          exhausted (advanceN f g m (initState ids)) = false)
      ∧ loadMoreNews f g (advanceN f g (ceilPages ids.length) (initState ids))
          = (advanceN f g (ceilPages ids.length) (initState ids), []) := by
  refine ⟨?_, ?_, ?_⟩
  · rw [advanceN_init]
    simp only [exhausted]
    apply decide_eq_true
    show ids.length ≤ _
    rw [Nat.min_self]
    exact ceil_mul_ge ids.length
  · intro m hm
    rw [advanceN_init]
    simp only [exhausted]
    apply decide_eq_false
    rw [Nat.min_eq_left (Nat.le_of_lt hm)]
    have := (pages_lt_iff m ids.length).mpr hm
    omega
  · rw [advanceN_init]
    apply loadMoreNews_exhausted
    show ids.length ≤ _
    rw [Nat.min_self]
    exact ceil_mul_ge ids.length

/-- C1 witness: id list `[1..7]`, page size 6, so `⌈7/6⌉ = 2` advance calls
exhaust the controller, while after 1 call it is not yet exhausted. -/
theorem c1_calls_to_exhaustion_witness :
    exhausted (advanceN (fun _ => none) bestOnItem 2 (initState [1, 2, 3, 4, 5, 6, 7])) = true
      ∧ exhausted (advanceN (fun _ => none) bestOnItem 1 (initState [1, 2, 3, 4, 5, 6, 7]))
          = false
      ∧ loadMoreNews (fun _ => none) bestOnItem
            (advanceN (fun _ => none) bestOnItem 2 (initState [1, 2, 3, 4, 5, 6, 7]))
          = (advanceN (fun _ => none) bestOnItem 2 (initState [1, 2, 3, 4, 5, 6, 7]), []) := by
  have h := c1_calls_to_exhaustion (fun _ => none) bestOnItem [1, 2, 3, 4, 5, 6, 7]
  have e : ceilPages (List.length [1, 2, 3, 4, 5, 6, 7]) = 2 := by decide
  rw [e] at h
  exact ⟨h.1, h.2.1 1 (by decide), h.2.2⟩

/-- C5: while the In-Flight flag (`bestNewsLoading` / `latestNewsLoading`) is
true, `advance()` is a no-op on either controller: the id list, cursor and
flag are returned unchanged and the event trace is empty, so no fetch is
issued. -/
theorem c5_inflight_noop (f : Nat → Option Item) (s : ControllerState)
    (h : s.loading = true) :
    loadMoreBestNews f s = (s, []) ∧ loadMoreLatestNews f s = (s, []) :=
  ⟨loadMoreNews_loading f bestOnItem s h, loadMoreNews_loading f latestOnItem s h⟩

/-- C5 witness: a concrete in-flight state is left untouched by both
controllers' `advance()`. -/
theorem c5_inflight_noop_witness :
    loadMoreBestNews (fun _ => none) { ids := [1, 2, 3], page := 0, loading := true }
        = ({ ids := [1, 2, 3], page := 0, loading := true }, [])
      ∧ loadMoreLatestNews (fun _ => none) { ids := [1, 2, 3], page := 0, loading := true }
        = ({ ids := [1, 2, 3], page := 0, loading := true }, []) :=
  c5_inflight_noop (fun _ => none) { ids := [1, 2, 3], page := 0, loading := true } rfl

/-- C6: in every state reachable from initialization by `advance()` calls, the
cursor times the page size exceeds the id-list length by at most
`ITEMS_PER_PAGE - 1`; the cursor is non-decreasing from call to call; and one
further `advance()` increments it by exactly 1 when it issues fetches (the
increment is independent of how many items were valid, since it holds for
every validity test `g`) and leaves it unchanged when it issues none. -/
theorem c6_cursor_invariant (f : Nat → Option Item) (g : Item → Bool) (ids : List Nat)
    (m : Nat) :
    (advanceN f g m (initState ids)).page * ITEMS_PER_PAGE
        ≤ ids.length + (ITEMS_PER_PAGE - 1)
      ∧ (advanceN f g m (initState ids)).page ≤ (advanceN f g (m + 1) (initState ids)).page
      ∧ (pageIssuedIds (loadMoreNews f g (advanceN f g m (initState ids))).2 = [] →
          (loadMoreNews f g (advanceN f g m (initState ids))).1.page
            = (advanceN f g m (initState ids)).page)
      ∧ (pageIssuedIds (loadMoreNews f g (advanceN f g m (initState ids))).2 ≠ [] →
          (loadMoreNews f g (advanceN f g m (initState ids))).1.page
            = (advanceN f g m (initState ids)).page + 1) := by
  rw [advanceN_init, advanceN_init]
  by_cases h : min m (ceilPages ids.length) * ITEMS_PER_PAGE < ids.length
  · have hrun := loadMoreNews_run f g
      { ids := ids, page := min m (ceilPages ids.length), loading := false } rfl h
    have hiss := run_pageIssuedIds f g
      { ids := ids, page := min m (ceilPages ids.length), loading := false } rfl h
    have hne := batch_ne_nil
      { ids := ids, page := min m (ceilPages ids.length), loading := false } h
    refine ⟨?_, ?_, ?_, ?_⟩
    · simp only [ceilPages, ITEMS_PER_PAGE] at *
      omega
    · have hlt : min m (ceilPages ids.length) < ceilPages ids.length :=
        (pages_lt_iff _ ids.length).mp h
      simp only
      omega
    · intro hempty
      rw [hiss] at hempty
      exact absurd hempty hne
    · intro _
      rw [hrun]
  · have hex := loadMoreNews_exhausted f g
      { ids := ids, page := min m (ceilPages ids.length), loading := false }
      (by simpa using Nat.not_lt.mp h)
    refine ⟨?_, ?_, ?_, ?_⟩
    · have hle : min m (ceilPages ids.length) ≤ ceilPages ids.length := Nat.min_le_right _ _
      simp only [ceilPages, ITEMS_PER_PAGE] at *
      omega
    · simp only
      omega
    · intro _
      rw [hex]
    · intro hne
      rw [hex] at hne
      simp [pageIssuedIds] at hne

/-- C6 witness: at the concrete reachable state after one call on id list
`[1..7]` the bound, monotonicity and the exactly-once increment all hold. -/
theorem c6_cursor_invariant_witness :
    (advanceN (fun _ => none) bestOnItem 1 (initState [1, 2, 3, 4, 5, 6, 7])).page
          * ITEMS_PER_PAGE ≤ 7 + (ITEMS_PER_PAGE - 1)
      ∧ (loadMoreNews (fun _ => none) bestOnItem
            (advanceN (fun _ => none) bestOnItem 1 (initState [1, 2, 3, 4, 5, 6, 7]))).1.page
          = (advanceN (fun _ => none) bestOnItem 1 (initState [1, 2, 3, 4, 5, 6, 7])).page
            + 1 := by
  have h := c6_cursor_invariant (fun _ => none) bestOnItem [1, 2, 3, 4, 5, 6, 7] 1
  exact ⟨h.1, h.2.2.2 (by decide)⟩

/-- C3: `fetchItemsWithConcurrency` calls `onBatchComplete` exactly once, as
the final event of the run, with argument the number of items over the whole
input for which `onItemFetched` returned true; `onItemFetched` is invoked
exactly on the non-null fetch results (absent items are silently skipped).
The embedding is a total function — no exceptional control flow leaves the
batch fetcher, mirroring that its per-id fetch `fetchItemDetails` resolves
instead of throwing. -/
theorem c3_ondone_once (f : Nat → Option Item) (g : Item → Bool) (ids : List Nat) :
    validCounts (fetchItemsWithConcurrency f g ids)
        = [((ids.filterMap f).filter g).length]
      ∧ (fetchItemsWithConcurrency f g ids).getLast?
        = some (FetchEvent.done (((ids.filterMap f).filter g).length))
      ∧ itemCalls (fetchItemsWithConcurrency f g ids) = ids.filterMap f :=
  ⟨fic_validCounts f g ids, fic_getLast f g ids, fic_itemCalls f g ids⟩

/-- C7: the items passed to `onItemFetched`, and in particular the rendered
ones (those on which it returns true), appear in the order of their ids in
the source slice — the trace is the concatenation of per-chunk segments in
slice order (chunks strictly sequential, each segment passing its resolved
items in original chunk order). -/
theorem c7_render_order (f : Nat → Option Item) (g : Item → Bool) (ids : List Nat) :
    itemCalls (fetchItemsWithConcurrency f g ids) = ids.filterMap f
      ∧ renderedItems (fetchItemsWithConcurrency f g ids) = (ids.filterMap f).filter g
      ∧ (fetchLoop f g ids).2 = ((chunkedIds ids).map (chunkEvents f g)).flatten
      ∧ (chunkedIds ids).flatten = ids :=
  ⟨fic_itemCalls f g ids, fic_renderedItems f g ids, fetchLoop_chunked f g ids,
    chunkedIds_flatten ids⟩

/-- C9: in every prefix of a `fetchItemsWithConcurrency` run the number of
issued fetches exceeds the number of resolved ones by at most
`MAX_CONCURRENT_REQUESTS`, i.e. at most K fetches are in flight at any
instant; the run is a sequential concatenation of per-chunk segments (each
segment issues its whole chunk, then waits for all its resolutions, then
passes items on) and every chunk has at most K ids. -/
theorem c9_inflight_bound (f : Nat → Option Item) (g : Item → Bool) (ids : List Nat) :
    (∀ p q : List FetchEvent, fetchItemsWithConcurrency f g ids = p ++ q →
        p.countP isIssue ≤ p.countP isResolve + MAX_CONCURRENT_REQUESTS)
      ∧ (∀ c ∈ chunkedIds ids, c.length ≤ MAX_CONCURRENT_REQUESTS)
      ∧ (fetchLoop f g ids).2 = ((chunkedIds ids).map (chunkEvents f g)).flatten :=
  ⟨fic_inflight f g ids, chunkedIds_length_le ids, fetchLoop_chunked f g ids⟩

/-- C9 witness: on the 4-id input, the prefix made of the first chunk's three
issue events has three fetches in flight, within the bound. -/
theorem c9_inflight_bound_witness :
    List.countP isIssue [FetchEvent.issue 1, FetchEvent.issue 2, FetchEvent.issue 3]
      ≤ List.countP isResolve [FetchEvent.issue 1, FetchEvent.issue 2, FetchEvent.issue 3]
        + MAX_CONCURRENT_REQUESTS :=
  (c9_inflight_bound (fun _ => none) bestOnItem [1, 2, 3, 4]).1
    [FetchEvent.issue 1, FetchEvent.issue 2, FetchEvent.issue 3]
    [FetchEvent.resolve 1 none, FetchEvent.resolve 2 none, FetchEvent.resolve 3 none,
      FetchEvent.issue 4, FetchEvent.resolve 4 none, FetchEvent.done 0]
    (by decide)

/-- C8: `fetchFromAPI` returns `[]` and `fetchItemDetails` returns `none` —
they never throw, being total functions — on a transport failure, on a
non-success status, and on a decode failure; and each consumes only the first
outcome the transport would produce (a single request, never retried). -/
theorem c8_failure_defaults :
    fetchFromAPI TransportOutcome.netError = []
      ∧ (∀ (status : Nat) (body : Except Unit (List Nat)), resOk status = false →
          fetchFromAPI (TransportOutcome.response status body) = [])
      ∧ (∀ status : Nat,
          fetchFromAPI (TransportOutcome.response status (Except.error ())) = [])
      ∧ fetchItemDetails TransportOutcome.netError = none
      ∧ (∀ (status : Nat) (body : Except Unit Item), resOk status = false →
          fetchItemDetails (TransportOutcome.response status body) = none)
      ∧ (∀ status : Nat,
          fetchItemDetails (TransportOutcome.response status (Except.error ())) = none)
      ∧ (∀ os os' : Nat → TransportOutcome (List Nat), os 0 = os' 0 →
          fetchFromAPIFirstAttempt os = fetchFromAPIFirstAttempt os')
      ∧ (∀ os os' : Nat → TransportOutcome Item, os 0 = os' 0 →
          fetchItemDetailsFirstAttempt os = fetchItemDetailsFirstAttempt os') := by
  refine ⟨rfl, ?_, ?_, rfl, ?_, ?_, ?_, ?_⟩
  · intro status body h
    simp [fetchFromAPI, h]
  · intro status
    rcases hs : resOk status with hv | hv <;> simp [fetchFromAPI, hs]
  · intro status body h
    simp [fetchItemDetails, h]
  · intro status
    rcases hs : resOk status with hv | hv <;> simp [fetchItemDetails, hs]
  · intro os os' h
    simp only [fetchFromAPIFirstAttempt, h]
  · intro os os' h
    simp only [fetchItemDetailsFirstAttempt, h]

/-- Sample decoded item used by witnesses. -/
def plainStory : Item :=
  { id := 1, type := "story", title := none, url := none, time := none, score := none }

/-- C8 witness: a 404 response and a decode failure both yield the empty /
absent defaults, and only the first transport outcome matters. -/
theorem c8_failure_defaults_witness :
    resOk 404 = false
      ∧ fetchFromAPI (TransportOutcome.response 404 (Except.ok [1, 2])) = []
      ∧ fetchFromAPI (TransportOutcome.response 200 (Except.error ())) = []
      ∧ fetchItemDetails (TransportOutcome.response 404 (Except.ok plainStory)) = none
      ∧ fetchFromAPIFirstAttempt (fun _ => TransportOutcome.netError)
          = fetchFromAPIFirstAttempt
              (fun n => if n = 0 then TransportOutcome.netError
                else TransportOutcome.response 200 (Except.error ())) := by
  refine ⟨by decide, ?_, ?_, ?_, ?_⟩
  · exact c8_failure_defaults.2.1 404 (Except.ok [1, 2]) (by decide)
  · exact c8_failure_defaults.2.2.1 200
  · exact c8_failure_defaults.2.2.2.2.1 404 (Except.ok plainStory) (by decide)
  · exact c8_failure_defaults.2.2.2.2.2.2.1
      (fun _ => TransportOutcome.netError)
      (fun n => if n = 0 then TransportOutcome.netError
        else TransportOutcome.response 200 (Except.error ())) rfl

/-- Modelled from the spec sentence behind C2, for comparison with the code:
the exhaustion signal as the formula `(cursor + 1) * pageSize >= len(IDList)`
read on the post-increment state, as the sentence's "evaluated after the
cursor increment" dictates. -/
def claimHiddenAfterIncrement (s : ControllerState) : Bool :=
  decide ((s.page + 1) * ITEMS_PER_PAGE ≥ s.ids.length)

/-- C2 counterexample: id list `[1..7]`, page 0 run of the best controller.
The code's single button update reports `hasMore = true` (affordance kept
visible), while the claim's formula on the post-increment state (page 1:
`(1+1)*6 = 12 ≥ 7`) says the affordance is hidden. The claim's own
"equivalently attempted ≥ length" reading (`6 < 7`) agrees with the code, not
with its formula-after-increment reading. -/
theorem c2_counterexample :
    buttonUpdates (loadMoreBestNews (fun _ => none) (initState [1, 2, 3, 4, 5, 6, 7])).2
        = [true]
      ∧ claimHiddenAfterIncrement
          (loadMoreBestNews (fun _ => none) (initState [1, 2, 3, 4, 5, 6, 7])).1 = true := by
  decide

/-- C2 amended: the signal is computed inside the batch-completion callback,
before the cursor increment, as `(cursor + 1) * pageSize >= len(IDList)` with
`cursor` the pre-increment value — equivalently the affordance is hidden
exactly once the number of ids attempted (post-increment cursor times page
size) reaches or exceeds the id-list length. -/
theorem c2_exhaustion_signal (f : Nat → Option Item) (g : Item → Bool)
    (s : ControllerState) (h1 : s.loading = false)
    (h2 : s.page * ITEMS_PER_PAGE < s.ids.length) :
    buttonUpdates (loadMoreNews f g s).2
        = [decide ((s.page + 1) * ITEMS_PER_PAGE < s.ids.length)]
      ∧ (loadMoreNews f g s).1.page = s.page + 1
      ∧ (¬ (s.page + 1) * ITEMS_PER_PAGE < s.ids.length
          ↔ (loadMoreNews f g s).1.page * ITEMS_PER_PAGE ≥ s.ids.length) := by
  refine ⟨run_buttonUpdates f g s h1 h2, ?_, ?_⟩
  · rw [loadMoreNews_run f g s h1 h2]
  · rw [loadMoreNews_run f g s h1 h2]
    simp only [ge_iff_le, Nat.not_lt]

/-- C2 amended witness: at id list `[1..7]`, page 0, the emitted update is
`hasMore = true` and the hidden-iff-attempted-covers-list equivalence holds. -/
theorem c2_exhaustion_signal_witness :
    buttonUpdates (loadMoreNews (fun _ => none) bestOnItem (initState [1, 2, 3, 4, 5, 6, 7])).2
        = [decide ((0 + 1) * ITEMS_PER_PAGE < 7)]
      ∧ (loadMoreNews (fun _ => none) bestOnItem (initState [1, 2, 3, 4, 5, 6, 7])).1.page
        = 0 + 1 := by
  have h := c2_exhaustion_signal (fun _ => none) bestOnItem
    (initState [1, 2, 3, 4, 5, 6, 7]) rfl (by decide)
  exact ⟨h.1, h.2.1⟩

/-- Modelled from the claim's words for C4 and C10: "returns true iff type is
story and it has a non-absent URL", reading non-absent literally as
`Option.isSome`. -/
def claimValidBest (it : Item) : Bool :=
  it.type == "story" && it.url.isSome

/-- Modelled from the claim's words: the latest-feed variant, with the
minimum-score threshold on the score treated as 0 when absent. -/
def claimValidLatest (it : Item) : Bool :=
  it.type == "story" && it.url.isSome && decide (it.score.getD 0 ≥ MIN_SCORE_LATEST)

/-- Story item whose URL is present but empty — "non-absent" in the claims'
reading, falsy in the code's JavaScript condition `item.url`. -/
def emptyUrlStory : Item :=
  { id := 1, type := "story", title := some "t", url := some "", time := none,
    score := some 5 }

/-- C4 counterexample: `emptyUrlStory` satisfies the claim's validity
predicate (type story, URL non-absent, score above threshold) yet both
controllers' `onItemFetched` reject it, because the empty string is falsy in
`item.type === 'story' && item.url`. -/
theorem c4_counterexample :
    claimValidBest emptyUrlStory = true
      ∧ claimValidLatest emptyUrlStory = true
      ∧ bestOnItem emptyUrlStory = false
      ∧ latestOnItem emptyUrlStory = false := by
  decide

/-- C4 amended: `onItemFetched` returns true (and renders) iff the type tag
is `story`, the URL is present and non-empty (JavaScript truthiness), and —
latest feed only — the score, 0 when absent, reaches the threshold; items
failing the test are not among the rendered items and not counted in the
value passed to `onBatchComplete`; and a completed page advances the cursor
by exactly 1 whatever the validity test decided. -/
theorem c4_validity_filter (it : Item) (f : Nat → Option Item) (g : Item → Bool)
    (ids : List Nat) (s : ControllerState) (h1 : s.loading = false)
    (h2 : s.page * ITEMS_PER_PAGE < s.ids.length) :
    (bestOnItem it = true ↔ (it.type = "story" ∧ strTruthy it.url = true))
      ∧ (latestOnItem it = true ↔
          (it.type = "story" ∧ strTruthy it.url = true
            ∧ it.score.getD 0 ≥ MIN_SCORE_LATEST))
      ∧ renderedItems (fetchItemsWithConcurrency f g ids) = (ids.filterMap f).filter g
      ∧ validCounts (fetchItemsWithConcurrency f g ids)
          = [((ids.filterMap f).filter g).length]
      ∧ (loadMoreNews f g s).1.page = s.page + 1 := by
  refine ⟨?_, ?_, fic_renderedItems f g ids, fic_validCounts f g ids, ?_⟩
  · simp [bestOnItem, Bool.and_eq_true, beq_iff_eq]
  · simp [latestOnItem, Bool.and_eq_true, beq_iff_eq, and_assoc]
  · rw [loadMoreNews_run f g s h1 h2]

/-- Story item with a present non-empty URL, used by witnesses. -/
def linkedStory : Item :=
  { id := 9, type := "story", title := some "t", url := some "u", time := none,
    score := none }

/-- C4 amended witness: a valid story is accepted by both feeds' tests, and a
concrete page 0 run on `[1,2]` counts only the filter-passing items while
still advancing the cursor to 1. -/
theorem c4_validity_filter_witness :
    bestOnItem linkedStory = true
      ∧ renderedItems (fetchItemsWithConcurrency (fun _ => none) bestOnItem [1, 2]) = []
      ∧ validCounts (fetchItemsWithConcurrency (fun _ => none) bestOnItem [1, 2]) = [0]
      ∧ (loadMoreNews (fun _ => none) bestOnItem (initState [1, 2])).1.page = 0 + 1 := by
  have h := c4_validity_filter linkedStory
    (fun _ => none) bestOnItem [1, 2] (initState [1, 2]) rfl (by decide)
  refine ⟨h.1.mpr (by exact ⟨rfl, rfl⟩), ?_, ?_, h.2.2.2.2⟩
  · rw [h.2.2.1]
    decide
  · rw [h.2.2.2.1]
    decide

/-- Story item with a URL but no title, used by the C10 witness. -/
def plainUrlStoryNoTitle : Item :=
  { id := 3, type := "story", title := none, url := some "u", time := none, score := none }

/-- Story item with an absent title and a present-but-empty URL — the claim's
hypotheses (type story, URL non-absent) hold of it. -/
def emptyUrlNoTitleStory : Item :=
  { id := 2, type := "story", title := none, url := some "", time := none, score := none }

/-- C10 counterexample: `emptyUrlNoTitleStory` has type `story` and a
non-absent URL, yet the best feed's check rejects it (empty string is falsy
in `item.url`), so the claim's "for every fetched item with type tag story
and a non-absent URL ... the check returns true and rendering proceeds" fails
at this item. -/
theorem c10_counterexample :
    emptyUrlNoTitleStory.type = "story"
      ∧ (emptyUrlNoTitleStory.url).isSome = true
      ∧ bestOnItem emptyUrlNoTitleStory = false := by
  decide

/-- C10 amended: for a fetched item of type `story` with a present non-empty
URL, the best feed's validity check returns true, it is independent of the
title field, and rendering proceeds into `renderBestNewsItem`, which applies
`escapeHTML` to the absent title — the modelled `TypeError` of
`text.replace` on `undefined`. -/
theorem c10_title_independence (it : Item) (t : Option String)
    (h1 : it.type = "story") (h2 : strTruthy it.url = true) :
    bestOnItem it = true
      ∧ bestOnItem { it with title := t } = bestOnItem it
      ∧ (it.title = none → renderBestNewsItem it = Except.error "TypeError") := by
  refine ⟨?_, ?_, ?_⟩
  · simp [bestOnItem, h1, h2]
  · cases it
    simp [bestOnItem]
  · intro h3
    simp only [renderBestNewsItem, h3, escapeHTMLJS]
    rfl

/-- C10 amended witness: a story with URL and no title passes the check, the
check ignores the title, and its render run hits the `TypeError` of
`escapeHTML(undefined)`. -/
theorem c10_title_independence_witness :
    bestOnItem plainUrlStoryNoTitle = true
      ∧ bestOnItem { plainUrlStoryNoTitle with title := some "t" }
          = bestOnItem plainUrlStoryNoTitle
      ∧ renderBestNewsItem plainUrlStoryNoTitle = Except.error "TypeError" := by
  have h := c10_title_independence plainUrlStoryNoTitle (some "t") rfl rfl
  exact ⟨h.1, h.2.1, h.2.2 rfl⟩
